import Mathlib

/-
Verification of the HE allocator toolkit (src/Source/SDK/HE_Allocator.h).

The C++ allocators are shallowly embedded: a memory address is a natural
number with 0 as the null pointer; each C++ allocator object becomes a
state type together with pure transition functions; the mutable member
state of an allocator object is threaded explicitly.  Combinators
(FallbackAllocator, FreelistAllocator, AffixAllocator, SegregateAllocator)
are parametrised by an abstract record of their inner allocator's
operations, mirroring the template parameters of the C++ code.
-/

namespace HE

/-- A memory block: a pointer plus the length the allocator handed out.
Mirrors `HE::MemoryBlock` (`ptr`, `length`); addresses are natural numbers
and address 0 plays the role of the null pointer. -/
structure Blk where
  ptr : Nat
  length : Nat
deriving DecidableEq

/-- The null block `{nullptr, 0}`, which denotes allocation failure. -/
def nullBlk : Blk := ⟨0, 0⟩

/-- The HE allocator contract over a state type `σ`: `allocate`,
`deallocate` and `owns`, with the C++ object's mutable state passed and
returned explicitly. -/
structure Allocator (σ : Type) where
  allocate : σ → Nat → Blk × σ
  deallocate : σ → Blk → σ
  owns : σ → Blk → Bool

/-- `HE::Allocator::unbounded = static_cast<size_t>(-1)`, i.e. `2^64 - 1`
on a 64-bit platform. -/
def Allocator.unbounded : Nat := 2 ^ 64 - 1

/-- `FallbackAllocator::allocate(size_t n)`: delegate to Primary; if the
returned block's pointer is null, retry on Fallback. -/
def FallbackAllocator.allocate {σp σf : Type} (P : Allocator σp) (F : Allocator σf)
    (st : σp × σf) (n : Nat) : Blk × (σp × σf) :=
  let r := P.allocate st.1 n
  if r.1.ptr = 0 then
    let r2 := F.allocate st.2 n
    (r2.1, (r.2, r2.2))
  else
    (r.1, (r.2, st.2))

/-- `FallbackAllocator::deallocate(Blk b)`: if `Primary::owns(b)`, Primary
frees the block, otherwise Fallback frees it. -/
def FallbackAllocator.deallocate {σp σf : Type} (P : Allocator σp) (F : Allocator σf)
    (st : σp × σf) (b : Blk) : σp × σf :=
  if P.owns st.1 b then (P.deallocate st.1 b, st.2)
  else (st.1, F.deallocate st.2 b)

/-- `FallbackAllocator::owns(Blk b)` (exposed when Fallback is owning):
`Primary::owns(b) || Fallback::owns(b)`. -/
def FallbackAllocator.owns {σp σf : Type} (P : Allocator σp) (F : Allocator σf)
    (st : σp × σf) (b : Blk) : Bool :=
  P.owns st.1 b || F.owns st.2 b

/-- A concrete leaf allocator that always succeeds, handing out blocks at
address `p`; used to instantiate witnesses. -/
def constParent (p : Nat) : Allocator Unit :=
  ⟨fun s n => (⟨p, n⟩, s), fun s _ => s, fun _ b => decide (b.ptr = p)⟩

/-- A concrete leaf allocator that always fails (returns the null block);
used to instantiate witnesses. -/
def failParent : Allocator Unit :=
  ⟨fun s _ => (nullBlk, s), fun s _ => s, fun _ _ => false⟩

/-- C2: `FallbackAllocator::allocate(n)` first calls `Primary::allocate(n)`;
when Primary's block has a non-null pointer that exact block is returned,
Fallback's state is untouched and Fallback is never invoked; if and only if
Primary's pointer is null is `Fallback::allocate(n)` called, and its block
returned. -/
theorem fallback_allocate_precedence {σp σf : Type}
    (P : Allocator σp) (F : Allocator σf) (st : σp × σf) (n : Nat) :
    ((P.allocate st.1 n).1.ptr ≠ 0 →
      FallbackAllocator.allocate P F st n =
        ((P.allocate st.1 n).1, ((P.allocate st.1 n).2, st.2))) ∧
    ((P.allocate st.1 n).1.ptr = 0 →
      FallbackAllocator.allocate P F st n =
        ((F.allocate st.2 n).1, ((P.allocate st.1 n).2, (F.allocate st.2 n).2))) := by
  constructor
  · intro h
    simp [FallbackAllocator.allocate, h]
  · intro h
    simp [FallbackAllocator.allocate, h]

/-- Witness for C2 at a concrete instance: a Primary that succeeds at
address 100 short-circuits the Fallback. -/
theorem fallback_allocate_precedence_witness :
    FallbackAllocator.allocate (constParent 100) failParent ((), ()) 5 =
      (⟨100, 5⟩, ((), ())) :=
  (fallback_allocate_precedence (constParent 100) failParent ((), ()) 5).1 (by decide)

/-- C3: `FallbackAllocator::deallocate(b)` routes to Primary exactly when
`Primary::owns(b)` holds and to Fallback otherwise, and (when Fallback is
owning) `owns(b)` is the disjunction of the children's `owns`. -/
theorem fallback_deallocate_owns {σp σf : Type}
    (P : Allocator σp) (F : Allocator σf) (st : σp × σf) (b : Blk) :
    (P.owns st.1 b = true →
      FallbackAllocator.deallocate P F st b = (P.deallocate st.1 b, st.2)) ∧
    (P.owns st.1 b = false →
      FallbackAllocator.deallocate P F st b = (st.1, F.deallocate st.2 b)) ∧
    FallbackAllocator.owns P F st b = (P.owns st.1 b || F.owns st.2 b) := by
  refine ⟨fun h => ?_, fun h => ?_, rfl⟩
  · simp [FallbackAllocator.deallocate, h]
  · simp [FallbackAllocator.deallocate, h]

/-- Witness for C3 at a concrete instance: the Primary owning address 100
frees the block `{100, 5}` itself. -/
theorem fallback_deallocate_owns_witness :
    FallbackAllocator.deallocate (constParent 100) failParent ((), ()) ⟨100, 5⟩ =
      ((), ()) :=
  (fallback_deallocate_owns (constParent 100) failParent ((), ()) ⟨100, 5⟩).1 (by decide)

/-- `SegregateAllocator::allocate_Impl(size_t n, ...)`: route the request
to SmallAllocator iff `n <= Threshold`, else to LargeAllocator. -/
def SegregateAllocator.allocate {σs σl : Type} (T : Nat)
    (S : Allocator σs) (L : Allocator σl)
    (st : σs × σl) (n : Nat) : Blk × (σs × σl) :=
  if n ≤ T then
    let r := S.allocate st.1 n
    (r.1, (r.2, st.2))
  else
    let r := L.allocate st.2 n
    (r.1, (st.1, r.2))

/-- Modelled from the spec: `SegregateAllocator::owns` in HE_Allocator.h
reads an identifier `n` that is not bound in its scope (the code is
ill-formed once instantiated); the spec resolves the routing predicate as
the block's recorded length `b.length`. -/
def SegregateAllocator.owns {σs σl : Type} (T : Nat)
    (S : Allocator σs) (L : Allocator σl)
    (st : σs × σl) (b : Blk) : Bool :=
  if b.length ≤ T then S.owns st.1 b else L.owns st.2 b

/-- Modelled from the spec: `SegregateAllocator::deallocate` in
HE_Allocator.h reads an identifier `n` that is not bound in its scope (the
code is ill-formed once instantiated); the spec resolves the routing
predicate as the block's recorded length `b.length`. -/
def SegregateAllocator.deallocate {σs σl : Type} (T : Nat)
    (S : Allocator σs) (L : Allocator σl)
    (st : σs × σl) (b : Blk) : σs × σl :=
  if b.length ≤ T then (S.deallocate st.1 b, st.2)
  else (st.1, L.deallocate st.2 b)

/-- C1: with the routing predicate taken from the spec's resolution
(`b.length <= Threshold`), `owns` and `deallocate` are served by
SmallAllocator iff `b.length <= Threshold` and by LargeAllocator
otherwise — the same child `allocate` chooses for a request of size
`b.length`. -/
theorem segregate_routes_by_length {σs σl : Type} (T : Nat)
    (S : Allocator σs) (L : Allocator σl) (st : σs × σl) (b : Blk) :
    (b.length ≤ T →
      SegregateAllocator.owns T S L st b = S.owns st.1 b ∧
      SegregateAllocator.deallocate T S L st b = (S.deallocate st.1 b, st.2) ∧
      SegregateAllocator.allocate T S L st b.length =
        ((S.allocate st.1 b.length).1, ((S.allocate st.1 b.length).2, st.2))) ∧
    (¬ b.length ≤ T →
      SegregateAllocator.owns T S L st b = L.owns st.2 b ∧
      SegregateAllocator.deallocate T S L st b = (st.1, L.deallocate st.2 b) ∧
      SegregateAllocator.allocate T S L st b.length =
        ((L.allocate st.2 b.length).1, (st.1, (L.allocate st.2 b.length).2))) := by
  constructor
  · intro h
    refine ⟨?_, ?_, ?_⟩ <;>
      simp [SegregateAllocator.owns, SegregateAllocator.deallocate,
        SegregateAllocator.allocate, h]
  · intro h
    refine ⟨?_, ?_, ?_⟩ <;>
      simp [SegregateAllocator.owns, SegregateAllocator.deallocate,
        SegregateAllocator.allocate, h]

/-- Witness for C1 at a concrete instance: with threshold 8, the block
`{100, 8}` is owned, freed and (at size 8) allocated by the small child. -/
theorem segregate_routes_by_length_witness :
    SegregateAllocator.owns 8 (constParent 100) (constParent 200) ((), ()) ⟨100, 8⟩ =
        (constParent 100).owns () ⟨100, 8⟩ ∧
      SegregateAllocator.deallocate 8 (constParent 100) (constParent 200) ((), ()) ⟨100, 8⟩ =
        ((constParent 100).deallocate () ⟨100, 8⟩, ()) ∧
      SegregateAllocator.allocate 8 (constParent 100) (constParent 200) ((), ()) (Blk.length ⟨100, 8⟩) =
        (((constParent 100).allocate () 8).1, (((constParent 100).allocate () 8).2, ())) :=
  (segregate_routes_by_length 8 (constParent 100) (constParent 200) ((), ()) ⟨100, 8⟩).1
    (by decide)

/-- `LightInlineAllocator<N>::allocate(size_t n)`: hand out the beginning
of the embedded buffer (at address `base`) whenever `n <= N`, else the
null block.  No bookkeeping is consulted. -/
def LightInlineAllocator.allocate (N base : Nat) (n : Nat) : Blk :=
  if n ≤ N then ⟨base, n⟩ else nullBlk

/-- `LightInlineAllocator<N>::owns(Blk b)`:
`b.begin() >= m_buffer && b.end() <= m_buffer + N`. -/
def LightInlineAllocator.owns (N base : Nat) (b : Blk) : Bool :=
  decide (base ≤ b.ptr) && decide (b.ptr + b.length ≤ base + N)

/-- `LightInlineAllocator<N>::deallocate(Blk)`: the body is empty, so the
object's state (here trivial, as the class tracks nothing) is unchanged. -/
def LightInlineAllocator.deallocate (s : Unit) (_b : Blk) : Unit := s

/-- C9: `LightInlineAllocator<N>.allocate(n)` returns the buffer start with
length `n` when `n <= N` and the null block otherwise, independently of any
prior allocation (two successful allocations return the same pointer);
`deallocate` is a no-op; `owns(b)` holds iff `b`'s range lies within the
buffer. -/
theorem lightinline_contract (N base : Nat) (b : Blk) (u : Unit) (n n1 n2 : Nat) :
    (n ≤ N → LightInlineAllocator.allocate N base n = ⟨base, n⟩) ∧
    (¬ n ≤ N → LightInlineAllocator.allocate N base n = nullBlk) ∧
    (n1 ≤ N → n2 ≤ N →
      (LightInlineAllocator.allocate N base n1).ptr =
        (LightInlineAllocator.allocate N base n2).ptr) ∧
    LightInlineAllocator.deallocate u b = u ∧
    (LightInlineAllocator.owns N base b = true ↔
      base ≤ b.ptr ∧ b.ptr + b.length ≤ base + N) := by
  refine ⟨fun h => ?_, fun h => ?_, fun h1 h2 => ?_, rfl, ?_⟩
  · simp [LightInlineAllocator.allocate, h]
  · simp [LightInlineAllocator.allocate, h]
  · simp [LightInlineAllocator.allocate, h1, h2]
  · simp [LightInlineAllocator.owns]

/-- Witness for C9 at a concrete instance: a 64-byte buffer at address
1000. -/
theorem lightinline_contract_witness :
    LightInlineAllocator.allocate 64 1000 32 = ⟨1000, 32⟩ ∧
    LightInlineAllocator.allocate 64 1000 100 = nullBlk ∧
    (LightInlineAllocator.allocate 64 1000 8).ptr =
      (LightInlineAllocator.allocate 64 1000 16).ptr ∧
    LightInlineAllocator.owns 64 1000 ⟨1000, 64⟩ = true :=
  ⟨(lightinline_contract 64 1000 ⟨1000, 64⟩ () 32 8 16).1 (by decide),
   (lightinline_contract 64 1000 ⟨1000, 64⟩ () 100 8 16).2.1 (by decide),
   (lightinline_contract 64 1000 ⟨1000, 64⟩ () 32 8 16).2.2.1 (by decide) (by decide),
   ((lightinline_contract 64 1000 ⟨1000, 64⟩ () 32 8 16).2.2.2.2).mpr (by decide)⟩

/-- Modelled from the spec: `Math::IsPow2` (HE_Math.h is not in the
repository snapshot); true iff `n` is a power of two. -/
def isPow2 (n : Nat) : Bool := n != 0 && (n &&& (n - 1)) == 0

/-- Modelled from the spec: `PlatformMaxAlignment = Math::Max(alignof(void*),
alignof(size_t))` (HE_Math.h with Math::Max is not in the repository
snapshot); on the 64-bit platforms this engine targets both alignof values
are 8. -/
def platformMaxAlignment : Nat := 8

/-- The argument of the EXPECTS fatal assertion in
`LightInlineAllocator::allocate(size_t n, size_t a)`:
`Math::IsPow2(alignment) && a >= alignment`, where `alignment` is the class
constant `PlatformMaxAlignment`.  Note that the power-of-two test is
applied to the class constant, not to the argument `a`. -/
def LightInlineAllocator.alignedExpects (a : Nat) : Bool :=
  isPow2 platformMaxAlignment && decide (a ≥ platformMaxAlignment)

/-- The argument of the EXPECTS fatal assertion in
`SegregateAllocator::allocate(size_t n, size_t alignment_requirement)`:
`alignment_requirement >= alignment && Math::IsPow2(alignment_requirement)`. -/
def SegregateAllocator.alignedExpects (alignment a : Nat) : Bool :=
  decide (a ≥ alignment) && isPow2 a

/-- C8 fails on the code: with `PlatformMaxAlignment = 8`, the alignment
argument 24 is not a power of two and is at least the allocator's own
alignment, yet `LightInlineAllocator`'s assertion accepts it (the code
tests `IsPow2` of the class constant instead of the argument `a`), while
`SegregateAllocator`'s assertion rejects it as the claim requires. -/
theorem lightinline_accepts_non_pow2_alignment :
    isPow2 24 = false ∧ 24 ≥ platformMaxAlignment ∧
    LightInlineAllocator.alignedExpects 24 = true ∧
    SegregateAllocator.alignedExpects 8 24 = false := by decide

/-- Modelled from the spec: `Math::RoundUpToMultipleOf` (HE_Math.h is not
in the repository snapshot); `round_up(x, m)` is the least multiple of `m`
that is at least `x`. -/
def roundUpToMultipleOf (x m : Nat) : Nat := ((x + m - 1) / m) * m

/-- `Private::SuffixImpl::totalAllocationSize(size_t s)` of the
AffixAllocator, with `preSize = StateSize<PrefixType>::value`,
`sufSize = StateSize<SuffixType>::value` and `sufAlign = alignof(SuffixType)`.
The `SuffixImpl<PrefixType, void>` specialization coincides with the
`sufSize = 0` branch. -/
def AffixAllocator.totalAllocationSize (preSize sufSize sufAlign : Nat) (s : Nat) : Nat :=
  if sufSize = 0 then s + preSize
  else roundUpToMultipleOf (s + preSize) sufAlign + sufSize

/-- `AffixAllocator::allocate(size_t n)`: ask Parent for
`totalAllocationSize(n)` bytes; on failure return Parent's block as is,
otherwise return the parent pointer advanced past the prefix, with length
`n`. -/
def AffixAllocator.allocate {σ : Type} (Parent : Allocator σ)
    (preSize sufSize sufAlign : Nat) (st : σ) (n : Nat) : Blk × σ :=
  let r := Parent.allocate st (AffixAllocator.totalAllocationSize preSize sufSize sufAlign n)
  if r.1.ptr = 0 then r
  else (⟨r.1.ptr + preSize, n⟩, r.2)

/-- `AffixAllocator::actualAllocation(Blk b)`: reconstruct the block that
was requested from Parent — pointer shifted back by the prefix size and
length expanded to `totalAllocationSize(b.length)`. -/
def AffixAllocator.actualAllocation (preSize sufSize sufAlign : Nat) (b : Blk) : Blk :=
  if b.ptr = 0 then nullBlk
  else ⟨b.ptr - preSize, AffixAllocator.totalAllocationSize preSize sufSize sufAlign b.length⟩

/-- `AffixAllocator::deallocate(Blk b)`: forward the reconstructed parent
block to Parent. -/
def AffixAllocator.deallocate {σ : Type} (Parent : Allocator σ)
    (preSize sufSize sufAlign : Nat) (st : σ) (b : Blk) : σ :=
  Parent.deallocate st (AffixAllocator.actualAllocation preSize sufSize sufAlign b)

/-- `AffixAllocator::owns(Blk b)`: forward on the reconstructed parent
block. -/
def AffixAllocator.owns {σ : Type} (Parent : Allocator σ)
    (preSize sufSize sufAlign : Nat) (st : σ) (b : Blk) : Bool :=
  Parent.owns st (AffixAllocator.actualAllocation preSize sufSize sufAlign b)

/-- C4: when the Parent allocation succeeds, `AffixAllocator.allocate(n)`
returns the parent pointer advanced by the prefix size with length `n`;
deallocating that block hands Parent back the original parent pointer with
length exactly `totalAllocationSize(n)`; and `totalAllocationSize(n)` is
`n + preSize` when the suffix is empty and
`round_up(n + preSize, sufAlign) + sufSize` otherwise. -/
theorem affix_allocate_roundtrip {σ : Type} (Parent : Allocator σ)
    (preSize sufSize sufAlign n : Nat) (st : σ) (pb : Blk) (pst : σ)
    (heq : Parent.allocate st
      (AffixAllocator.totalAllocationSize preSize sufSize sufAlign n) = (pb, pst))
    (hp : pb.ptr ≠ 0) :
    AffixAllocator.allocate Parent preSize sufSize sufAlign st n =
      (⟨pb.ptr + preSize, n⟩, pst) ∧
    (∀ st2 : σ,
      AffixAllocator.deallocate Parent preSize sufSize sufAlign st2 ⟨pb.ptr + preSize, n⟩ =
        Parent.deallocate st2
          ⟨pb.ptr, AffixAllocator.totalAllocationSize preSize sufSize sufAlign n⟩) ∧
    AffixAllocator.totalAllocationSize preSize sufSize sufAlign n =
      (if sufSize = 0 then n + preSize
       else roundUpToMultipleOf (n + preSize) sufAlign + sufSize) := by
  refine ⟨?_, ?_, rfl⟩
  · simp [AffixAllocator.allocate, heq, hp]
  · intro st2
    have hnz : pb.ptr + preSize ≠ 0 := by omega
    simp [AffixAllocator.deallocate, AffixAllocator.actualAllocation, hnz]

/-- Witness for C4 at a concrete instance: prefix of 8 bytes, suffix of 4
bytes aligned to 4, request of 10 bytes backed by a parent block at
address 100 of 24 bytes. -/
theorem affix_allocate_roundtrip_witness :
    AffixAllocator.allocate (constParent 100) 8 4 4 () 10 = (⟨108, 10⟩, ()) ∧
    AffixAllocator.deallocate (constParent 100) 8 4 4 () ⟨108, 10⟩ = () ∧
    AffixAllocator.totalAllocationSize 8 4 4 10 = 24 := by
  have h := affix_allocate_roundtrip (constParent 100) 8 4 4 10 () ⟨100, 24⟩ ()
    (by decide) (by decide)
  exact ⟨h.1, h.2.1 (), by decide⟩

/-- The mutable state of a `FreelistAllocator`: the Parent's state, the
freelist as the chain of node addresses starting at `m_pFreelistRoot`
(head first, following `Node::next`), and `m_nNodesCount`. -/
structure FreelistState (σ : Type) where
  parent : σ
  freelist : List Nat
  nNodesCount : Nat
deriving DecidableEq

/-- `FreelistAllocator::inRange(size_t n)`. -/
def FreelistAllocator.inRange (MinSize MaxSize n : Nat) : Bool :=
  if MinSize = MaxSize then n == MaxSize
  else (MinSize == 0 || decide (n ≥ MinSize)) && decide (n ≤ MaxSize)

/-- `FreelistAllocator::deallocate(Blk b)`: if the freelist can grow
(`MaxNodes == unbounded || m_nNodesCount != MaxNodes`) and `b.length` is in
range, push the node and bump the counter; otherwise forward to Parent. -/
def FreelistAllocator.deallocate {σ : Type} (Parent : Allocator σ)
    (MinSize MaxSize MaxNodes : Nat) (st : FreelistState σ) (b : Blk) :
    FreelistState σ :=
  if (MaxNodes == Allocator.unbounded || st.nNodesCount != MaxNodes) &&
      FreelistAllocator.inRange MinSize MaxSize b.length then
    { st with freelist := b.ptr :: st.freelist, nNodesCount := st.nNodesCount + 1 }
  else
    { st with parent := Parent.deallocate st.parent b }

/-- `FreelistAllocator::allocateImpl(size_t n)` (the unaligned path): out
of range requests go to Parent; with an empty freelist, a `MaxSize`-byte
parent allocation is relabelled to length `n` (whether or not it
succeeded); otherwise the head node is popped and handed out with length
`n`. -/
def FreelistAllocator.allocate {σ : Type} (Parent : Allocator σ)
    (MinSize MaxSize : Nat) (st : FreelistState σ) (n : Nat) :
    Blk × FreelistState σ :=
  if ! FreelistAllocator.inRange MinSize MaxSize n then
    let r := Parent.allocate st.parent n
    (r.1, { st with parent := r.2 })
  else
    match st.freelist with
    | [] =>
      let r := Parent.allocate st.parent MaxSize
      (⟨r.1.ptr, n⟩, { st with parent := r.2 })
    | p :: rest =>
      (⟨p, n⟩, { st with freelist := rest, nNodesCount := st.nNodesCount - 1 })

/-- `FreelistAllocator::deallocateAllImpl` when Parent supports
deallocateAll: call it and clear the freelist root.  The node counter is
left untouched, as in the code. -/
def FreelistAllocator.deallocateAllFast {σ : Type} (parentDeallocateAll : σ → σ)
    (st : FreelistState σ) : FreelistState σ :=
  { st with parent := parentDeallocateAll st.parent, freelist := [] }

/-- `FreelistAllocator::deallocateAllImpl` when Parent lacks deallocateAll
and the freelist is unbounded: walk the list, deallocating each node to
Parent with length `MaxSize`, then clear the root.  The node counter is
left untouched, as in the code. -/
def FreelistAllocator.deallocateAllSlow {σ : Type} (Parent : Allocator σ)
    (MaxSize : Nat) (st : FreelistState σ) : FreelistState σ :=
  { st with
    parent := st.freelist.foldl (fun s p => Parent.deallocate s ⟨p, MaxSize⟩) st.parent,
    freelist := [] }

/-- C7: a size `n` is in range iff `n = MaxSize` when `MinSize = MaxSize`,
and iff `MinSize ≤ n ≤ MaxSize` otherwise (in the unsigned size domain,
`MinSize = 0` imposes no lower bound); out-of-range allocations and
deallocations are forwarded to Parent. -/
theorem freelist_inRange_spec {σ : Type} (Parent : Allocator σ)
    (MinSize MaxSize MaxNodes n : Nat) (st : FreelistState σ) (b : Blk) :
    (MinSize = MaxSize →
      (FreelistAllocator.inRange MinSize MaxSize n = true ↔ n = MaxSize)) ∧
    (MinSize ≠ MaxSize →
      (FreelistAllocator.inRange MinSize MaxSize n = true ↔
        MinSize ≤ n ∧ n ≤ MaxSize)) ∧
    (FreelistAllocator.inRange MinSize MaxSize n = false →
      FreelistAllocator.allocate Parent MinSize MaxSize st n =
        ((Parent.allocate st.parent n).1,
         { st with parent := (Parent.allocate st.parent n).2 })) ∧
    (FreelistAllocator.inRange MinSize MaxSize b.length = false →
      FreelistAllocator.deallocate Parent MinSize MaxSize MaxNodes st b =
        { st with parent := Parent.deallocate st.parent b }) := by
  refine ⟨fun h => ?_, fun h => ?_, fun h => ?_, fun h => ?_⟩
  · subst h
    simp [FreelistAllocator.inRange]
  · simp only [FreelistAllocator.inRange, if_neg h]
    constructor
    · intro hb
      simp only [Bool.and_eq_true, Bool.or_eq_true, beq_iff_eq, decide_eq_true_eq] at hb
      omega
    · intro hb
      simp only [Bool.and_eq_true, Bool.or_eq_true, beq_iff_eq, decide_eq_true_eq]
      omega
  · simp [FreelistAllocator.allocate, h]
  · simp [FreelistAllocator.deallocate, h]

/-- Witness for C7 at concrete instances: for bounds 8..8 only size 8 is in
range; for 4..16 size 10 is in range; an out-of-range request of 100 on
bounds 8..8 is forwarded to the parent. -/
theorem freelist_inRange_spec_witness :
    (FreelistAllocator.inRange 8 8 8 = true ↔ (8 : Nat) = 8) ∧
    (FreelistAllocator.inRange 4 16 10 = true ↔ (4 : Nat) ≤ 10 ∧ (10 : Nat) ≤ 16) ∧
    FreelistAllocator.allocate (constParent 100) 8 8 ⟨(), [], 0⟩ 100 =
      (⟨100, 100⟩, ⟨(), [], 0⟩) :=
  ⟨(freelist_inRange_spec (constParent 100) 8 8 1 8 ⟨(), [], 0⟩ ⟨0, 0⟩).1 (by decide),
   (freelist_inRange_spec (constParent 100) 4 16 1 10 ⟨(), [], 0⟩ ⟨0, 0⟩).2.1 (by decide),
   (freelist_inRange_spec (constParent 100) 8 8 1 100 ⟨(), [], 0⟩ ⟨0, 0⟩).2.2.1 (by decide)⟩

/-- C5: for an in-range size `k`, if after `allocate(k)` the freelist can
still accept a node (unbounded, or the counter differs from MaxNodes),
then `allocate(k)`, `deallocate` of the returned block, and a second
`allocate(k)` yield a block with the same pointer as the first. -/
theorem freelist_reuse {σ : Type} (Parent : Allocator σ)
    (MinSize MaxSize MaxNodes k : Nat) (st0 : FreelistState σ)
    (hin : FreelistAllocator.inRange MinSize MaxSize k = true)
    (hcap : (MaxNodes == Allocator.unbounded ||
      (FreelistAllocator.allocate Parent MinSize MaxSize st0 k).2.nNodesCount
        != MaxNodes) = true) :
    (FreelistAllocator.allocate Parent MinSize MaxSize
      (FreelistAllocator.deallocate Parent MinSize MaxSize MaxNodes
        (FreelistAllocator.allocate Parent MinSize MaxSize st0 k).2
        (FreelistAllocator.allocate Parent MinSize MaxSize st0 k).1) k).1.ptr =
      (FreelistAllocator.allocate Parent MinSize MaxSize st0 k).1.ptr := by
  obtain ⟨pσ, fl, c⟩ := st0
  cases fl with
  | nil =>
    simp only [FreelistAllocator.allocate, hin, Bool.not_true, Bool.false_eq_true,
      if_false] at hcap ⊢
    simp only [FreelistAllocator.deallocate, hcap, hin, Bool.and_self, if_true]
  | cons p rest =>
    simp only [FreelistAllocator.allocate, hin, Bool.not_true, Bool.false_eq_true,
      if_false] at hcap ⊢
    simp only [FreelistAllocator.deallocate, hcap, hin, Bool.and_self, if_true]

/-- Witness for C5 at a concrete instance: a freelist of capacity 1 over a
parent serving address 100, request size 8 with bounds 8..8. -/
theorem freelist_reuse_witness :
    (FreelistAllocator.allocate (constParent 100) 8 8
      (FreelistAllocator.deallocate (constParent 100) 8 8 1
        (FreelistAllocator.allocate (constParent 100) 8 8 ⟨(), [], 0⟩ 8).2
        (FreelistAllocator.allocate (constParent 100) 8 8 ⟨(), [], 0⟩ 8).1) 8).1.ptr =
      (FreelistAllocator.allocate (constParent 100) 8 8 ⟨(), [], 0⟩ 8).1.ptr :=
  freelist_reuse (constParent 100) 8 8 1 8 ⟨(), [], 0⟩ (by decide) (by decide)

/-- C6 as stated fails on the code: with a Parent whose allocation fails,
an in-range request of 8 bytes on an empty freelist returns `{nullptr, 8}`
— the length field is set to the requested 8, not to 0, so the result is
not the null block `{nullptr, 0}`. -/
theorem freelist_failed_alloc_counterexample :
    (FreelistAllocator.allocate failParent 8 8 ⟨(), [], 0⟩ 8).1 = ⟨0, 8⟩ ∧
    (FreelistAllocator.allocate failParent 8 8 ⟨(), [], 0⟩ 8).1 ≠ nullBlk := by
  decide

/-- C6 amended: when the request is in range, the freelist is empty and the
Parent's `MaxSize` allocation fails, `allocate(n)` returns a block with a
null pointer whose length field is the requested `n` (failure is signalled
by the null pointer alone, not by a zero length). -/
theorem freelist_failed_alloc_null_ptr {σ : Type} (Parent : Allocator σ)
    (MinSize MaxSize n : Nat) (st : FreelistState σ)
    (hin : FreelistAllocator.inRange MinSize MaxSize n = true)
    (hempty : st.freelist = [])
    (hfail : (Parent.allocate st.parent MaxSize).1.ptr = 0) :
    (FreelistAllocator.allocate Parent MinSize MaxSize st n).1 = ⟨0, n⟩ := by
  obtain ⟨pσ, fl, c⟩ := st
  simp only at hempty
  subst hempty
  simp only [FreelistAllocator.allocate, hin, Bool.not_true, Bool.false_eq_true,
    if_false] at hfail ⊢
  simp [hfail]

/-- Witness for C6's amended statement at a concrete instance: a parent
that always fails, bounds 8..8, request 8 on an empty freelist. -/
theorem freelist_failed_alloc_null_ptr_witness :
    (FreelistAllocator.allocate failParent 8 8 ⟨(), [], 0⟩ 8).1 = ⟨0, 8⟩ :=
  freelist_failed_alloc_null_ptr failParent 8 8 8 ⟨(), [], 0⟩
    (by decide) (by decide) (by decide)

/-- C10 fails on the code: `deallocateAllImpl` clears the freelist root but
never resets `m_nNodesCount`.  Concretely, for a bounded freelist
(MaxNodes = 1) whose Parent supports deallocateAll: after caching one node
the counter matches the freelist length, but after `deallocateAll` the
freelist is empty while the counter still reads 1. -/
theorem freelist_count_desync :
    (FreelistAllocator.deallocate (constParent 100) 8 8 1
        ⟨(), [], 0⟩ ⟨100, 8⟩).nNodesCount =
      (FreelistAllocator.deallocate (constParent 100) 8 8 1
        ⟨(), [], 0⟩ ⟨100, 8⟩).freelist.length ∧
    (FreelistAllocator.deallocateAllFast id
      (FreelistAllocator.deallocate (constParent 100) 8 8 1
        ⟨(), [], 0⟩ ⟨100, 8⟩)).freelist = [] ∧
    (FreelistAllocator.deallocateAllFast id
      (FreelistAllocator.deallocate (constParent 100) 8 8 1
        ⟨(), [], 0⟩ ⟨100, 8⟩)).nNodesCount = 1 := by
  decide

end HE
